import Mathlib

/-!
Verification of the NetworkManager status block (`src/blocks/networkmanager.rs`).

The development shallowly embeds the block's pure logic:

* the code tables (`NetworkState`, `ActiveConnectionState`, `DeviceType` and
  their `From<u32>` conversions),
* the address codec (`ByteOrderSwap for u32`, `From<Array<u32>> for
  Ipv4Address`, `Display for Ipv4Address`),
* the remote-object facades (`ConnectionManager`, `NmConnection`, `NmDevice`,
  `NmAccessPoint`, `NmIp4Config`), with the D-Bus replies captured by an
  explicit environment (`Env`) mapping object paths to the typed results of
  each property query (`none` models a failed `Result`),
* the `Block` implementation: `update`, `view` and `click`.

Rust panics (`unwrap` on a missing iterator element, `String::truncate` off a
character boundary) are modelled by `Option`'s `none` at the point where the
panic occurs, so an aborted refresh is distinguishable from a produced one.
-/

/-- Display severity of a rendered widget, from the `widget` module (not part
of the analysed file). Modelled from the spec: "Severity: the display
classification (Good/Info/Idle/Warning/Critical) attached to a rendered
entry". -/
inductive State where
  | Idle
  | Info
  | Good
  | Warning
  | Critical
deriving DecidableEq, Repr

/-- Overall network state, `enum NetworkState` in the source. -/
inductive NetworkState where
  | Unknown
  | Asleep
  | Disconnected
  | Disconnecting
  | Connecting
  | ConnectedLocal
  | ConnectedSite
  | ConnectedGlobal
deriving DecidableEq, Repr

/-- `impl From<u32> for NetworkState`: documented codes map to their variant,
everything else to `Unknown`. -/
def NetworkState.fromCode (id : Nat) : NetworkState :=
  match id with
  | 10 => NetworkState.Asleep
  | 20 => NetworkState.Disconnected
  | 30 => NetworkState.Disconnecting
  | 40 => NetworkState.Connecting
  | 50 => NetworkState.ConnectedLocal
  | 60 => NetworkState.ConnectedSite
  | 70 => NetworkState.ConnectedGlobal
  | _ => NetworkState.Unknown

/-- Per-connection activation state, `enum ActiveConnectionState`. -/
inductive ActiveConnectionState where
  | Unknown
  | Activating
  | Activated
  | Deactivating
  | Deactivated
deriving DecidableEq, Repr

/-- `impl From<u32> for ActiveConnectionState`. -/
def ActiveConnectionState.fromCode (id : Nat) : ActiveConnectionState :=
  match id with
  | 1 => ActiveConnectionState.Activating
  | 2 => ActiveConnectionState.Activated
  | 3 => ActiveConnectionState.Deactivating
  | 4 => ActiveConnectionState.Deactivated
  | _ => ActiveConnectionState.Unknown

/-- `ActiveConnectionState::to_state`: map an activation state to a display
severity, given the caller-supplied "good" severity. -/
def ActiveConnectionState.to_state (s : ActiveConnectionState) (good : State) : State :=
  match s with
  | ActiveConnectionState.Activated => good
  | ActiveConnectionState.Activating => State.Warning
  | ActiveConnectionState.Deactivating => State.Warning
  | ActiveConnectionState.Deactivated => State.Critical
  | ActiveConnectionState.Unknown => State.Critical

/-- Device type, `enum DeviceType`. -/
inductive DeviceType where
  | Unknown
  | Ethernet
  | Wifi
  | Modem
  | Bridge
  | TUN
  | Wireguard
deriving DecidableEq, Repr

/-- `impl From<u32> for DeviceType`. -/
def DeviceType.fromCode (id : Nat) : DeviceType :=
  match id with
  | 1 => DeviceType.Ethernet
  | 2 => DeviceType.Wifi
  | 8 => DeviceType.Modem
  | 13 => DeviceType.Bridge
  | 16 => DeviceType.TUN
  | 29 => DeviceType.Wireguard
  | _ => DeviceType.Unknown

/-- `DeviceType::to_icon_name`. -/
def DeviceType.to_icon_name (d : DeviceType) : Option String :=
  match d with
  | DeviceType.Ethernet => some "net_wired"
  | DeviceType.Wifi => some "net_wireless"
  | DeviceType.Modem => some "net_modem"
  | DeviceType.Bridge => some "net_bridge"
  | DeviceType.TUN => some "net_bridge"
  | DeviceType.Wireguard => some "net_vpn"
  | _ => none

/-- The `format!("\x7b:?\x7d", dev_type)` fallback text: Rust's derived
`Debug` prints the variant name. -/
def DeviceType.debugFmt (d : DeviceType) : String :=
  match d with
  | DeviceType.Unknown => "Unknown"
  | DeviceType.Ethernet => "Ethernet"
  | DeviceType.Wifi => "Wifi"
  | DeviceType.Modem => "Modem"
  | DeviceType.Bridge => "Bridge"
  | DeviceType.TUN => "TUN"
  | DeviceType.Wireguard => "Wireguard"

/-- `impl ByteOrderSwap for u32`: `fn swap` reverses the byte order of a
32-bit word. `u32` is embedded as `Nat`; the masks keep the result below
`2 ^ 32` without an explicit reduction. -/
def swap (x : Nat) : Nat :=
  ((x &&& 0x000000FF) <<< 24) ||| ((x &&& 0x0000FF00) <<< 8) ||| ((x &&& 0x00FF0000) >>> 8) ||| ((x &&& 0xFF000000) >>> 24)

/-- `struct Ipv4Address`. `address` and `gateway` hold the `u32` backing a
Rust `Ipv4Addr` (big-endian octet interpretation); `prefixLen` is the
`prefix` field (renamed: `prefix` is not usable as a Lean field name). -/
structure Ipv4Address where
  address : Nat
  prefixLen : Nat
  gateway : Nat
deriving DecidableEq, Repr

/-- `impl From<Array<u32>> for Ipv4Address`: pull exactly three words off the
iterator; each missing word is an `unwrap` panic, modelled by `none`. The
first and third words are byte-order swapped, the prefix is taken as is;
words past the third are ignored. -/
def Ipv4Address.fromWords (s : List Nat) : Option Ipv4Address :=
  match s with
  | a :: p :: g :: _ => some { address := swap a, prefixLen := p, gateway := swap g }
  | _ => none

/-- Rust `Ipv4Addr` `Display`: dotted quad of the big-endian octets of the
backing word. -/
def ipv4AddrDisplay (x : Nat) : String :=
  toString (x / 2 ^ 24 % 256) ++ "." ++ toString (x / 2 ^ 16 % 256) ++ "." ++ toString (x / 2 ^ 8 % 256) ++ "." ++ toString (x % 256)

/-- `impl fmt::Display for Ipv4Address`: `"\x7b\x7d/\x7b\x7d"` of address and
prefix. -/
def Ipv4Address.display (a : Ipv4Address) : String :=
  ipv4AddrDisplay a.address ++ "/" ++ toString a.prefixLen

/-- Modelled from the spec: the inverse direction of the address codec
("converts a 3-element sequence of byte-order-swapped 32-bit integers into an
(address, prefix-length, gateway) record and back conceptually for testing").
The source only ships the decoder, so the encoder produces exactly the wire
form the decoder consumes: the address and gateway words byte-order swapped,
the prefix verbatim. -/
def encodeIpv4 (address prefixLen gateway : Nat) : List Nat :=
  [swap address, prefixLen, swap gateway]

/-- `struct NmConnection`: a bare object-path handle. -/
structure NmConnection where
  path : String
deriving DecidableEq, Repr

/-- `struct NmDevice`. -/
structure NmDevice where
  path : String
deriving DecidableEq, Repr

/-- `struct NmAccessPoint`. -/
structure NmAccessPoint where
  path : String
deriving DecidableEq, Repr

/-- `struct NmIp4Config`. -/
structure NmIp4Config where
  path : String
deriving DecidableEq, Repr

/-- The D-Bus side of one refresh: the typed outcome of every property query
the block can issue. `none` is a failed `Result` (transport error, timeout or
reply-shape mismatch inside `ConnectionManager::get` / `Message::get1`);
`some` carries the decoded reply value. Per-object queries are keyed by the
object path. `addressesReply` carries the raw word triples of the
`Addresses` property, still to be decoded by `Ipv4Address.fromWords`. -/
structure Env where
  stateReply : Option Nat
  primaryReply : Option String
  activeReply : Option (List String)
  connStateReply : String → Option Nat
  devicesReply : String → Option (List String)
  ip4configReply : String → Option String
  deviceTypeReply : String → Option Nat
  activeApReply : String → Option String
  ssidReply : String → Option String
  addressesReply : String → Option (List (List Nat))

/-- `ConnectionManager::state`: read the `State` property and convert the
code. -/
def ConnectionManager.state (env : Env) : Option NetworkState :=
  env.stateReply.map NetworkState.fromCode

/-- `ConnectionManager::primary_connection`: read the `PrimaryConnection`
property; the bus root sentinel `"/"` is surfaced as the semantic error
`"No primary connection"`, any other path becomes a handle carrying exactly
that path. -/
def ConnectionManager.primary_connection (env : Env) : Except String NmConnection :=
  match env.primaryReply with
  | none => Except.error "Failed to retrieve primary connection"
  | some conn =>
    if conn = "/" then Except.error "No primary connection"
    else Except.ok { path := conn }

/-- `ConnectionManager::active_connections`: read the `ActiveConnections`
path array, one handle per path. -/
def ConnectionManager.active_connections (env : Env) : Option (List NmConnection) :=
  env.activeReply.map (fun l => l.map (fun p => { path := p }))

/-- `NmConnection::state`. -/
def NmConnection.state (env : Env) (c : NmConnection) : Option ActiveConnectionState :=
  (env.connStateReply c.path).map ActiveConnectionState.fromCode

/-- `NmConnection::ip4config`. -/
def NmConnection.ip4config (env : Env) (c : NmConnection) : Option NmIp4Config :=
  (env.ip4configReply c.path).map (fun p => { path := p })

/-- `NmConnection::devices`. -/
def NmConnection.devices (env : Env) (c : NmConnection) : Option (List NmDevice) :=
  (env.devicesReply c.path).map (fun l => l.map (fun p => { path := p }))

/-- `NmDevice::device_type`. -/
def NmDevice.device_type (env : Env) (d : NmDevice) : Option DeviceType :=
  (env.deviceTypeReply d.path).map DeviceType.fromCode

/-- `NmDevice::active_access_point`. -/
def NmDevice.active_access_point (env : Env) (d : NmDevice) : Option NmAccessPoint :=
  (env.activeApReply d.path).map (fun p => { path := p })

/-- `NmAccessPoint::ssid` (the UTF-8 decode failure is folded into the
reply's `none`). -/
def NmAccessPoint.ssid (env : Env) (ap : NmAccessPoint) : Option String :=
  env.ssidReply ap.path

/-- `NmIp4Config::addresses`: map the decoder over the raw word triples.
The outer `Option` is the query's `Result`; the inner one is `none` when a
triple is too short and the decoder's `unwrap` panics. -/
def NmIp4Config.addresses (env : Env) (c : NmIp4Config) : Option (Option (List Ipv4Address)) :=
  (env.addressesReply c.path).map (fun raw => raw.mapM Ipv4Address.fromWords)

/-- The configuration fields of `NetworkManager` used by `update`/`click`,
plus the icon table reachable through `self.config.icons`. -/
structure Cfg where
  icons : String → Option String
  on_click : Option String
  primary_only : Bool
  unknown_device_icon : Bool
  ip : Bool
  ssid : Bool
  max_ssid_width : Nat

/-- `NetworkManagerConfig`'s defaults: `on_click` none, `primary_only` false,
`unknown_device_icon` false, `ip` true, `ssid` true, `max_ssid_width` 21;
the icon table defaults to empty here. -/
def defaultCfg : Cfg where
  icons := fun _ => none
  on_click := none
  primary_only := false
  unknown_device_icon := false
  ip := true
  ssid := true
  max_ssid_width := 21

/-- A rendered entry: the `set_state`/`set_text` content of a
`ButtonWidget`. -/
structure Widget where
  state : State
  text : String
deriving DecidableEq, Repr

/-- Result of one `update` run: the indicator's severity and text plus
`self.output`. -/
structure UpdateResult where
  indicator : Widget
  output : List Widget
deriving DecidableEq, Repr

/-- The `indicator.set_state` match in `update`. -/
def indicatorState (state : Option NetworkState) : State :=
  match state with
  | some NetworkState.ConnectedGlobal => State.Good
  | some NetworkState.ConnectedSite => State.Info
  | some NetworkState.ConnectedLocal => State.Idle
  | some NetworkState.Connecting => State.Warning
  | some NetworkState.Disconnecting => State.Warning
  | _ => State.Critical

/-- The `indicator.set_text` match in `update`. -/
def indicatorText (state : Option NetworkState) : String :=
  match state with
  | some NetworkState.Disconnected => "×"
  | some NetworkState.Asleep => "×"
  | some NetworkState.Unknown => "E"
  | _ => ""

/-- The `good_state` match in `update`. -/
def goodState (state : Option NetworkState) : State :=
  match state with
  | some NetworkState.ConnectedGlobal => State.Good
  | some NetworkState.ConnectedSite => State.Info
  | _ => State.Idle

/-- The connection-list assembly in `update`: primary-only keeps just the
primary (or nothing); otherwise the primary is put first, followed by the
active connections whose path differs from the primary's, in their original
order; a failed active-connections query contributes the empty list. -/
def connections (cfg : Cfg) (env : Env) : List NmConnection :=
  if cfg.primary_only then
    match ConnectionManager.primary_connection env with
    | Except.ok conn => [conn]
    | Except.error _ => []
  else
    let active := (ConnectionManager.active_connections env).getD []
    match ConnectionManager.primary_connection env with
    | Except.ok conn => conn :: active.filter (fun x => x.path != conn.path)
    | Except.error _ => active

/-- Rust `char` UTF-8 encoded size in bytes. -/
def charUtf8Size (c : Char) : Nat :=
  if c.val < 0x80 then 1 else if c.val < 0x800 then 2 else if c.val < 0x10000 then 3 else 4

/-- UTF-8 byte length of a character list. -/
def utf8Len (cs : List Char) : Nat :=
  (cs.map charUtf8Size).sum

/-- Rust `String::truncate(new_len)`: no-op when `new_len` is at least the
byte length, otherwise keep the first `new_len` BYTES — panicking (`none`)
when `new_len` falls inside a multi-byte character. -/
def rustTruncate (cs : List Char) (n : Nat) : Option (List Char) :=
  match cs with
  | [] => some []
  | c :: rest =>
    if n = 0 then some []
    else if charUtf8Size c ≤ n then
      (rustTruncate rest (n - charUtf8Size c)).map (fun tail => c :: tail)
    else none

/-- The per-device SSID fragment in `update`: nothing unless SSID display is
on and the access-point and SSID queries both succeed; then the SSID
truncated via `String::truncate(max_ssid_width)` plus one trailing space.
`none` is the truncation panic. -/
def ssidStr (cfg : Cfg) (env : Env) (d : NmDevice) : Option String :=
  if cfg.ssid then
    match NmDevice.active_access_point env d with
    | some ap =>
      match NmAccessPoint.ssid env ap with
      | some s => (rustTruncate s.data cfg.max_ssid_width).map (fun cs => String.mk cs ++ " ")
      | none => some ""
    | none => some ""
  else some ""

/-- The per-device icon fragment in `update`: icon-table lookup for mapped
device types (missing table entry → empty), otherwise the generic "unknown"
icon or the `Debug` text depending on `unknown_device_icon`; a failed
device-type query contributes the empty string. -/
def deviceIcon (cfg : Cfg) (env : Env) (d : NmDevice) : String :=
  match NmDevice.device_type env d with
  | some dev_type =>
    match dev_type.to_icon_name with
    | some icon_name => (cfg.icons icon_name).getD ""
    | none =>
      if cfg.unknown_device_icon then (cfg.icons "unknown").getD ""
      else dev_type.debugFmt
  | none => ""

/-- One entry of `devicevec`: icon text concatenated with SSID text. -/
def deviceLabel (cfg : Cfg) (env : Env) (d : NmDevice) : Option String :=
  (ssidStr cfg env d).map (fun s => deviceIcon cfg env d ++ s)

/-- The `devicevec` loop in `update`: one label per device when the device
list resolves, the empty list when it does not. -/
def devicevec (cfg : Cfg) (env : Env) (conn : NmConnection) : Option (List String) :=
  match NmConnection.devices env conn with
  | some devices => devices.mapM (deviceLabel cfg env)
  | none => some []

/-- The IP fragment in `update`: with IP display on, the comma-joined
`address/prefix` strings when ip4config and the address list resolve and the
list is non-empty, the placeholder `"×"` otherwise; with IP display off, the
empty string. `none` is an address-decode panic. -/
def ipText (cfg : Cfg) (env : Env) (conn : NmConnection) : Option String :=
  if cfg.ip then
    match NmConnection.ip4config env conn with
    | some ip4config =>
      match NmIp4Config.addresses env ip4config with
      | some (some addresses) =>
        some (if addresses.length > 0 then String.intercalate "," (addresses.map Ipv4Address.display) else "×")
      | some none => none
      | none => some "×"
    | none => some "×"
  else some ""

/-- One iteration of the widget-construction loop in `update`: severity from
the connection's activation state (query failure acts as `Unknown`), text
`devicevec.join(" ") + ip`. -/
def connectionWidget (cfg : Cfg) (env : Env) (good_state : State) (conn : NmConnection) : Option Widget := do
  let wstate :=
    match NmConnection.state env conn with
    | some conn_state => conn_state.to_state good_state
    | none => ActiveConnectionState.Unknown.to_state good_state
  let dv ← devicevec cfg env conn
  let ip ← ipText cfg env conn
  pure { state := wstate, text := String.intercalate " " dv ++ ip }

/-- `NetworkManager::update`: indicator from the overall state; for
`Disconnected`/`Asleep`/`Unknown` the widget list is left empty, otherwise
one widget per assembled connection. `none` is a panic inside the loop. -/
def update (cfg : Cfg) (env : Env) : Option UpdateResult :=
  let state := ConnectionManager.state env
  let indicator : Widget := { state := indicatorState state, text := indicatorText state }
  match state with
  | some NetworkState.Disconnected | some NetworkState.Asleep | some NetworkState.Unknown =>
    some { indicator := indicator, output := [] }
  | _ =>
    ((connections cfg env).mapM (connectionWidget cfg env (goodState state))).map
      (fun ws => { indicator := indicator, output := ws })

/-- `NetworkManager::view`: the indicator alone when the widget list is
empty, the widget list otherwise. -/
def view (r : UpdateResult) : List Widget :=
  if r.output.length = 0 then [r.indicator] else r.output

/-- Mouse button of an input event, from the `input` module (not part of the
analysed file). Modelled from the spec: only the left button triggers the
click command. -/
inductive MouseButton where
  | Left
  | Middle
  | Right
deriving DecidableEq, Repr

/-- The fields of `I3BarEvent` read by `NetworkManager::click`. -/
structure I3BarEvent where
  name : Option String
  button : MouseButton
deriving DecidableEq, Repr

/-- Accumulator pass over the characters for `split_whitespace`: `acc` holds
the current word reversed. -/
def wsSplitAux : List Char → List Char → List String
  | [], acc => if acc.isEmpty then [] else [String.mk acc.reverse]
  | c :: rest, acc =>
    if c.isWhitespace then
      if acc.isEmpty then wsSplitAux rest []
      else String.mk acc.reverse :: wsSplitAux rest []
    else wsSplitAux rest (c :: acc)

/-- Rust `str::split_whitespace`: the maximal non-empty runs of
non-whitespace characters, in order. -/
def split_whitespace (s : String) : List String :=
  wsSplitAux s.data []

/-- `NetworkManager::click`. The function never mutates the block; its only
observable acts are the optional process spawn and the `Ok(())` return.
`some spawned` is a normal `Ok(())` return, with `spawned` the
`(program, args)` handed to `Command` (or `none` when nothing is spawned);
the outer `none` is the `itr.next().unwrap()` panic on a whitespace-only
command string. -/
def click (id : String) (on_click : Option String) (e : I3BarEvent) : Option (Option (String × List String)) :=
  match e.name with
  | some name =>
    if name = id then
      match e.button with
      | MouseButton.Left =>
        match on_click with
        | some cmd =>
          match split_whitespace cmd with
          | [] => none
          | program :: args => some (some (program, args))
        | none => some none
      | _ => some none
    else some none
  | none => some none

/-- An environment in which every query fails: the base case for the concrete
scenarios below. -/
def envFail : Env where
  stateReply := none
  primaryReply := none
  activeReply := none
  connStateReply := fun _ => none
  devicesReply := fun _ => none
  ip4configReply := fun _ => none
  deviceTypeReply := fun _ => none
  activeApReply := fun _ => none
  ssidReply := fun _ => none
  addressesReply := fun _ => none

/-- Scenario: the overall-state query fails while one active connection is
reported. -/
def envC1 : Env :=
  { envFail with activeReply := some ["/org/freedesktop/NetworkManager/ActiveConnection/1"] }

/-- Scenario: the primary connection also occurs in the middle of the active
list. -/
def envC2 : Env :=
  { envFail with
    primaryReply := some "/p"
    activeReply := some ["/a", "/p", "/b"] }

/-- Scenario: overall state code 20 (`Disconnected`). -/
def envC3 : Env :=
  { envFail with stateReply := some 20, activeReply := some ["/x"] }

/-- Configuration with a small SSID width for the truncation scenarios. -/
def cfgC5 : Cfg :=
  { defaultCfg with max_ssid_width := 3 }

/-- Scenario: a wireless device whose SSID is the two-character, six-byte
string "日本". -/
def envC5 : Env :=
  { envFail with activeApReply := fun _ => some "/ap", ssidReply := fun _ => some "日本" }

/-- Scenario: a wireless device whose SSID is "éé", where byte 3 falls inside
the second character. -/
def envC5panic : Env :=
  { envFail with activeApReply := fun _ => some "/ap", ssidReply := fun _ => some "éé" }

/-- Scenario: the primary-connection property holds the bus root sentinel. -/
def envC8root : Env :=
  { envFail with primaryReply := some "/" }

/-- Scenario: the primary-connection property holds a real object path. -/
def envC8conn : Env :=
  { envFail with primaryReply := some "/org/freedesktop/NetworkManager/ActiveConnection/7" }

/-- Scenario: a connection with one IPv4 address 192.168.1.10/24 (address and
gateway words arrive byte-order swapped). -/
def envC9 : Env :=
  { envFail with
    ip4configReply := fun _ => some "/ip4"
    addressesReply := fun p => if p = "/ip4" then some [[0x0A01A8C0, 24, 0x0101A8C0]] else none }

/-- Bits of the mask `0xFF`: set exactly below position 8. -/
theorem tb255 (k : Nat) : Nat.testBit 255 k = decide (k < 8) := by
  have h : (255 : Nat) = 2 ^ 8 - 1 := by norm_num
  rw [h, Nat.testBit_two_pow_sub_one]

/-- Bits of the mask `0xFF00`. -/
theorem tb65280 (k : Nat) : Nat.testBit 65280 k = (decide (k ≥ 8) && decide (k - 8 < 8)) := by
  have h : (65280 : Nat) = (2 ^ 8 - 1) <<< 8 := by norm_num [Nat.shiftLeft_eq]
  rw [h, Nat.testBit_shiftLeft, Nat.testBit_two_pow_sub_one]

/-- Bits of the mask `0xFF0000`. -/
theorem tb16711680 (k : Nat) : Nat.testBit 16711680 k = (decide (k ≥ 16) && decide (k - 16 < 8)) := by
  have h : (16711680 : Nat) = (2 ^ 8 - 1) <<< 16 := by norm_num [Nat.shiftLeft_eq]
  rw [h, Nat.testBit_shiftLeft, Nat.testBit_two_pow_sub_one]

/-- Bits of the mask `0xFF000000`. -/
theorem tb4278190080 (k : Nat) : Nat.testBit 4278190080 k = (decide (k ≥ 24) && decide (k - 24 < 8)) := by
  have h : (4278190080 : Nat) = (2 ^ 8 - 1) <<< 24 := by norm_num [Nat.shiftLeft_eq]
  rw [h, Nat.testBit_shiftLeft, Nat.testBit_two_pow_sub_one]

/-- `swap` always lands inside 32 bits. -/
theorem swap_lt (x : Nat) : swap x < 2 ^ 32 := by
  unfold swap
  apply Nat.or_lt_two_pow
  apply Nat.or_lt_two_pow
  apply Nat.or_lt_two_pow
  · rw [Nat.shiftLeft_eq]
    have h : x &&& 255 ≤ 255 := Nat.and_le_right
    calc (x &&& 255) * 2 ^ 24 ≤ 255 * 2 ^ 24 := Nat.mul_le_mul_right _ h
      _ < 2 ^ 32 := by norm_num
  · rw [Nat.shiftLeft_eq]
    have h : x &&& 65280 ≤ 65280 := Nat.and_le_right
    calc (x &&& 65280) * 2 ^ 8 ≤ 65280 * 2 ^ 8 := Nat.mul_le_mul_right _ h
      _ < 2 ^ 32 := by norm_num
  · rw [Nat.shiftRight_eq_div_pow]
    have h : x &&& 16711680 ≤ 16711680 := Nat.and_le_right
    calc (x &&& 16711680) / 2 ^ 8 ≤ x &&& 16711680 := Nat.div_le_self _ _
      _ ≤ 16711680 := h
      _ < 2 ^ 32 := by norm_num
  · rw [Nat.shiftRight_eq_div_pow]
    have h : x &&& 4278190080 ≤ 4278190080 := Nat.and_le_right
    calc (x &&& 4278190080) / 2 ^ 24 ≤ x &&& 4278190080 := Nat.div_le_self _ _
      _ ≤ 4278190080 := h
      _ < 2 ^ 32 := by norm_num

/-- The byte-order swap is an involution on 32-bit words. -/
theorem swap_involution (x : Nat) (h : x < 2 ^ 32) : swap (swap x) = x := by
  apply Nat.eq_of_testBit_eq
  intro i
  by_cases hi : i < 32
  · interval_cases i <;>
      simp [swap, tb255, tb65280, tb16711680, tb4278190080]
  · have h1 : x.testBit i = false :=
      Nat.testBit_lt_two_pow (lt_of_lt_of_le h (Nat.pow_le_pow_right (by norm_num) (by omega)))
    have h2 : (swap (swap x)).testBit i = false :=
      Nat.testBit_lt_two_pow (lt_of_lt_of_le (swap_lt _) (Nat.pow_le_pow_right (by norm_num) (by omega)))
    rw [h1, h2]

/-- Claim C1, corrected part: when the overall-state query fails, `update`
does NOT behave as if the state were `Unknown` — the indicator text is the
empty string rather than the error glyph `"E"`, and the widget list is not
empty: with one active connection reported, the refresh still produces one
(Critical, `"×"`) widget. -/
theorem claim_C1_counterexample :
    update defaultCfg envC1 =
      some { indicator := { state := State.Critical, text := "" },
             output := [{ state := State.Critical, text := "×" }] } ∧
    ("" : String) ≠ "E" ∧
    ([{ state := State.Critical, text := "×" }] : List Widget) ≠ ([] : List Widget) := by
  exact ⟨by decide, by decide, by decide⟩

/-- Claim C1 (amended): if the overall-state query fails, the indicator is
set to Critical severity with EMPTY text (the error glyph is reserved for a
successful query reporting `Unknown`), and the refresh does not
short-circuit: the widget list is assembled from the connection queries
exactly as in a connected state, with good severity `Idle`. -/
theorem claim_C1 (cfg : Cfg) (env : Env) (h : env.stateReply = none) :
    update cfg env =
      ((connections cfg env).mapM (connectionWidget cfg env State.Idle)).map
        (fun ws => { indicator := { state := State.Critical, text := "" }, output := ws }) := by
  simp [update, ConnectionManager.state, h, indicatorState, indicatorText, goodState]

/-- Witness for the amended claim C1 at a concrete environment whose
overall-state query fails while one active connection is reported. -/
theorem claim_C1_witness :
    envC1.stateReply = none ∧
    update defaultCfg envC1 =
      ((connections defaultCfg envC1).mapM (connectionWidget defaultCfg envC1 State.Idle)).map
        (fun ws => { indicator := { state := State.Critical, text := "" }, output := ws }) ∧
    ((connections defaultCfg envC1).mapM (connectionWidget defaultCfg envC1 State.Idle)).map
        (fun ws => ({ indicator := { state := State.Critical, text := "" }, output := ws } : UpdateResult)) =
      some { indicator := { state := State.Critical, text := "" },
             output := [{ state := State.Critical, text := "×" }] } :=
  ⟨rfl, claim_C1 defaultCfg envC1 rfl, by decide⟩

/-- Claim C2: with primary-only disabled, when the primary-connection query
succeeds the assembled list is the primary followed by the active
connections whose path differs from the primary's, in their original
relative order, and the primary does not occur in that tail (so it appears
exactly once and first); when the primary query fails the list is the active
list alone; a failed active-connections query contributes the empty list. -/
theorem claim_C2 (cfg : Cfg) (env : Env) (hp : cfg.primary_only = false) :
    (∀ conn, ConnectionManager.primary_connection env = Except.ok conn →
      connections cfg env =
        conn :: ((ConnectionManager.active_connections env).getD []).filter (fun x => x.path != conn.path) ∧
      conn ∉ ((ConnectionManager.active_connections env).getD []).filter (fun x => x.path != conn.path)) ∧
    (∀ msg, ConnectionManager.primary_connection env = Except.error msg →
      connections cfg env = (ConnectionManager.active_connections env).getD []) ∧
    (env.activeReply = none → (ConnectionManager.active_connections env).getD [] = []) := by
  refine ⟨?_, ?_, ?_⟩
  · intro conn h
    refine ⟨by simp [connections, hp, h], ?_⟩
    intro hmem
    have hf := (List.mem_filter.mp hmem).2
    simp at hf
  · intro msg h
    simp [connections, hp, h]
  · intro h
    simp [ConnectionManager.active_connections, h]

/-- Witness for claim C2: the primary `"/p"` also sits in the middle of the
active list `["/a", "/p", "/b"]`; the merged list is
`["/p", "/a", "/b"]`. -/
theorem claim_C2_witness :
    defaultCfg.primary_only = false ∧
    ConnectionManager.primary_connection envC2 = Except.ok { path := "/p" } ∧
    connections defaultCfg envC2 = [{ path := "/p" }, { path := "/a" }, { path := "/b" }] ∧
    ({ path := "/p" } : NmConnection) ∉
      ((ConnectionManager.active_connections envC2).getD []).filter (fun x => x.path != "/p") := by
  have h := (claim_C2 defaultCfg envC2 rfl).1 { path := "/p" } rfl
  exact ⟨rfl, rfl, by rw [h.1]; decide, h.2⟩

/-- Claim C3: whenever the overall-state query returns `Disconnected`,
`Asleep` or `Unknown`, `update` leaves the widget list empty and sets the
indicator to Critical with the matching glyph (`"×"` for
Disconnected/Asleep, `"E"` for Unknown), whatever the rest of the
environment holds; `view` then renders the indicator alone. -/
theorem claim_C3 (cfg : Cfg) (env : Env) (s : NetworkState)
    (hs : ConnectionManager.state env = some s)
    (hmem : s = NetworkState.Disconnected ∨ s = NetworkState.Asleep ∨ s = NetworkState.Unknown) :
    update cfg env =
      some { indicator := { state := State.Critical, text := if s = NetworkState.Unknown then "E" else "×" },
             output := [] } ∧
    view { indicator := { state := State.Critical, text := if s = NetworkState.Unknown then "E" else "×" },
           output := [] } =
      [{ state := State.Critical, text := if s = NetworkState.Unknown then "E" else "×" }] := by
  rcases hmem with h | h | h <;> subst h <;>
    exact ⟨by simp [update, hs, indicatorState, indicatorText], by simp [view]⟩

/-- Witness for claim C3: state code 20 (`Disconnected`) with an active
connection present. -/
theorem claim_C3_witness :
    ConnectionManager.state envC3 = some NetworkState.Disconnected ∧
    update defaultCfg envC3 =
      some { indicator := { state := State.Critical, text := "×" }, output := [] } ∧
    view { indicator := { state := State.Critical, text := "×" }, output := [] } =
      [{ state := State.Critical, text := "×" }] := by
  have h := claim_C3 defaultCfg envC3 NetworkState.Disconnected rfl (Or.inl rfl)
  exact ⟨rfl, h.1, h.2⟩

/-- Claim C4: the address decode consumes exactly three words — any input of
fewer than three words is a decode failure (the `unwrap` panic), never a
value built from defaults; on three or more words the first three determine
the record. -/
theorem claim_C4 :
    (∀ words : List Nat, words.length < 3 → Ipv4Address.fromWords words = none) ∧
    (∀ a p g rest, Ipv4Address.fromWords (a :: p :: g :: rest) =
      some { address := swap a, prefixLen := p, gateway := swap g }) := by
  constructor
  · intro words h
    match words with
    | [] => rfl
    | [_] => rfl
    | [_, _] => rfl
    | _ :: _ :: _ :: _ => simp at h; omega
  · intro a p g rest
    rfl

/-- Witness for claim C4: a two-word input fails, a three-word input
decodes. -/
theorem claim_C4_witness :
    (([1, 2] : List Nat).length < 3 ∧ Ipv4Address.fromWords [1, 2] = none) ∧
    Ipv4Address.fromWords [0x0A01A8C0, 24, 0x0101A8C0] =
      some { address := swap 0x0A01A8C0, prefixLen := 24, gateway := swap 0x0101A8C0 } :=
  ⟨⟨by decide, claim_C4.1 [1, 2] (by decide)⟩, claim_C4.2 0x0A01A8C0 24 0x0101A8C0 []⟩

/-- Claim C6: byte-order swapping is an involution on 32-bit words, so
encoding an (address, prefix, gateway) triple into the swapped-endian
three-word wire form and decoding it reproduces the record — and hence its
dotted-quad/prefix display — exactly. -/
theorem claim_C6 (a p g x : Nat) (ha : a < 2 ^ 32) (hg : g < 2 ^ 32) (hx : x < 2 ^ 32) :
    swap (swap x) = x ∧
    Ipv4Address.fromWords (encodeIpv4 a p g) = some { address := a, prefixLen := p, gateway := g } ∧
    (Ipv4Address.fromWords (encodeIpv4 a p g)).map Ipv4Address.display =
      some (ipv4AddrDisplay a ++ "/" ++ toString p) := by
  have h2 : Ipv4Address.fromWords (encodeIpv4 a p g) = some { address := a, prefixLen := p, gateway := g } := by
    simp [encodeIpv4, Ipv4Address.fromWords, swap_involution a ha, swap_involution g hg]
  exact ⟨swap_involution x hx, h2, by rw [h2]; rfl⟩

/-- Witness for claim C6 at 192.168.1.10/24 with gateway 192.168.1.1. -/
theorem claim_C6_witness :
    (0xC0A8010A : Nat) < 2 ^ 32 ∧ (0xC0A80101 : Nat) < 2 ^ 32 ∧ (0x12345678 : Nat) < 2 ^ 32 ∧
    swap (swap 0x12345678) = 0x12345678 ∧
    Ipv4Address.fromWords (encodeIpv4 0xC0A8010A 24 0xC0A80101) =
      some { address := 0xC0A8010A, prefixLen := 24, gateway := 0xC0A80101 } ∧
    (Ipv4Address.fromWords (encodeIpv4 0xC0A8010A 24 0xC0A80101)).map Ipv4Address.display =
      some "192.168.1.10/24" := by
  have h := claim_C6 0xC0A8010A 24 0xC0A80101 0x12345678 (by norm_num) (by norm_num) (by norm_num)
  exact ⟨by norm_num, by norm_num, by norm_num, h.1, h.2.1, by rw [h.2.1]; rfl⟩

/-- Claim C7: each code-table conversion is total — every documented code
maps to its documented variant and every other integer maps to the Unknown
variant. -/
theorem claim_C7 :
    (∀ n : Nat, n ∉ ([10, 20, 30, 40, 50, 60, 70] : List Nat) → NetworkState.fromCode n = NetworkState.Unknown) ∧
    (NetworkState.fromCode 10 = NetworkState.Asleep ∧ NetworkState.fromCode 20 = NetworkState.Disconnected ∧
      NetworkState.fromCode 30 = NetworkState.Disconnecting ∧ NetworkState.fromCode 40 = NetworkState.Connecting ∧
      NetworkState.fromCode 50 = NetworkState.ConnectedLocal ∧ NetworkState.fromCode 60 = NetworkState.ConnectedSite ∧
      NetworkState.fromCode 70 = NetworkState.ConnectedGlobal) ∧
    (∀ n : Nat, n ∉ ([1, 2, 3, 4] : List Nat) → ActiveConnectionState.fromCode n = ActiveConnectionState.Unknown) ∧
    (ActiveConnectionState.fromCode 1 = ActiveConnectionState.Activating ∧
      ActiveConnectionState.fromCode 2 = ActiveConnectionState.Activated ∧
      ActiveConnectionState.fromCode 3 = ActiveConnectionState.Deactivating ∧
      ActiveConnectionState.fromCode 4 = ActiveConnectionState.Deactivated) ∧
    (∀ n : Nat, n ∉ ([1, 2, 8, 13, 16, 29] : List Nat) → DeviceType.fromCode n = DeviceType.Unknown) ∧
    (DeviceType.fromCode 1 = DeviceType.Ethernet ∧ DeviceType.fromCode 2 = DeviceType.Wifi ∧
      DeviceType.fromCode 8 = DeviceType.Modem ∧ DeviceType.fromCode 13 = DeviceType.Bridge ∧
      DeviceType.fromCode 16 = DeviceType.TUN ∧ DeviceType.fromCode 29 = DeviceType.Wireguard) := by
  refine ⟨?_, ⟨rfl, rfl, rfl, rfl, rfl, rfl, rfl⟩, ?_, ⟨rfl, rfl, rfl, rfl⟩, ?_, ⟨rfl, rfl, rfl, rfl, rfl, rfl⟩⟩
  · intro n h
    simp only [List.mem_cons, List.not_mem_nil, or_false] at h
    push_neg at h
    unfold NetworkState.fromCode
    split <;> first | rfl | omega
  · intro n h
    simp only [List.mem_cons, List.not_mem_nil, or_false] at h
    push_neg at h
    unfold ActiveConnectionState.fromCode
    split <;> first | rfl | omega
  · intro n h
    simp only [List.mem_cons, List.not_mem_nil, or_false] at h
    push_neg at h
    unfold DeviceType.fromCode
    split <;> first | rfl | omega

/-- Witness for claim C7: the undocumented code 99 maps to Unknown in all
three tables. -/
theorem claim_C7_witness :
    ((99 : Nat) ∉ ([10, 20, 30, 40, 50, 60, 70] : List Nat) ∧ NetworkState.fromCode 99 = NetworkState.Unknown) ∧
    ((99 : Nat) ∉ ([1, 2, 3, 4] : List Nat) ∧ ActiveConnectionState.fromCode 99 = ActiveConnectionState.Unknown) ∧
    ((99 : Nat) ∉ ([1, 2, 8, 13, 16, 29] : List Nat) ∧ DeviceType.fromCode 99 = DeviceType.Unknown) :=
  ⟨⟨by decide, claim_C7.1 99 (by decide)⟩,
   ⟨by decide, claim_C7.2.2.1 99 (by decide)⟩,
   ⟨by decide, claim_C7.2.2.2.2.1 99 (by decide)⟩⟩

/-- Claim C8: a primary-connection reply holding the bus root sentinel `"/"`
yields the `"No primary connection"` error and never a handle; any other
path yields a handle carrying exactly that path. -/
theorem claim_C8 (env : Env) (p : String) (h : env.primaryReply = some p) :
    (p = "/" → ConnectionManager.primary_connection env = Except.error "No primary connection") ∧
    (p ≠ "/" → ConnectionManager.primary_connection env = Except.ok { path := p }) := by
  constructor <;> intro hp <;> simp [ConnectionManager.primary_connection, h, hp]

/-- Witness for claim C8 at the sentinel and at a real object path. -/
theorem claim_C8_witness :
    envC8root.primaryReply = some "/" ∧
    ConnectionManager.primary_connection envC8root = Except.error "No primary connection" ∧
    envC8conn.primaryReply = some "/org/freedesktop/NetworkManager/ActiveConnection/7" ∧
    ConnectionManager.primary_connection envC8conn =
      Except.ok { path := "/org/freedesktop/NetworkManager/ActiveConnection/7" } :=
  ⟨rfl, (claim_C8 envC8root "/" rfl).1 rfl, rfl,
   (claim_C8 envC8conn "/org/freedesktop/NetworkManager/ActiveConnection/7" rfl).2 (by decide)⟩

/-- Claim C9: with IP display enabled, a resolving ip4config/address chain
with a non-empty list renders the comma-joined `address/prefix` strings; an
empty list or a failure at either step renders the placeholder `"×"`; with
IP display disabled the IP text is empty. -/
theorem claim_C9 (cfg : Cfg) (env : Env) (conn : NmConnection) :
    (cfg.ip = false → ipText cfg env conn = some "") ∧
    (cfg.ip = true →
      (∀ ip4 addresses, NmConnection.ip4config env conn = some ip4 →
        NmIp4Config.addresses env ip4 = some (some addresses) → addresses ≠ [] →
        ipText cfg env conn = some (String.intercalate "," (addresses.map Ipv4Address.display))) ∧
      (∀ ip4, NmConnection.ip4config env conn = some ip4 →
        NmIp4Config.addresses env ip4 = some (some []) → ipText cfg env conn = some "×") ∧
      (∀ ip4, NmConnection.ip4config env conn = some ip4 →
        NmIp4Config.addresses env ip4 = none → ipText cfg env conn = some "×") ∧
      (NmConnection.ip4config env conn = none → ipText cfg env conn = some "×")) := by
  refine ⟨fun h => by simp [ipText, h], fun h => ⟨?_, ?_, ?_, ?_⟩⟩
  · intro ip4 addresses h1 h2 h3
    have hlen : addresses.length > 0 := List.length_pos.mpr h3
    simp [ipText, h, h1, h2, hlen]
  · intro ip4 h1 h2
    simp [ipText, h, h1, h2]
  · intro ip4 h1 h2
    simp [ipText, h, h1, h2]
  · intro h1
    simp [ipText, h, h1]

/-- Witness for claim C9: one address renders as `192.168.1.10/24`; with IP
display off the text is empty. -/
theorem claim_C9_witness :
    defaultCfg.ip = true ∧
    NmConnection.ip4config envC9 { path := "/c" } = some { path := "/ip4" } ∧
    NmIp4Config.addresses envC9 { path := "/ip4" } =
      some (some [{ address := 0xC0A8010A, prefixLen := 24, gateway := 0xC0A80101 }]) ∧
    ipText defaultCfg envC9 { path := "/c" } = some "192.168.1.10/24" ∧
    ipText { defaultCfg with ip := false } envC9 { path := "/c" } = some "" := by
  have h := ((claim_C9 defaultCfg envC9 { path := "/c" }).2 rfl).1 { path := "/ip4" }
    [{ address := 0xC0A8010A, prefixLen := 24, gateway := 0xC0A80101 }] (by decide) (by decide) (by decide)
  have h2 := (claim_C9 { defaultCfg with ip := false } envC9 { path := "/c" }).1 rfl
  exact ⟨rfl, by decide, by decide, by rw [h]; decide, h2⟩

/-- Claim C10: provided a configured click command has at least one
whitespace-separated token, the handler returns `Ok(())` on every event; an
event whose name differs from the block id or whose button is not the left
one spawns nothing (and the handler never mutates the block). -/
theorem claim_C10 (id : String) (oc : Option String) (e : I3BarEvent)
    (hcmd : ∀ cmd, oc = some cmd → split_whitespace cmd ≠ []) :
    (click id oc e).isSome = true ∧
    (e.name ≠ some id ∨ e.button ≠ MouseButton.Left → click id oc e = some none) := by
  cases e with
  | mk name button =>
    cases name with
    | none => simp [click]
    | some nm =>
      by_cases hn : nm = id
      · subst hn
        cases button with
        | Left =>
          cases oc with
          | none => simp [click]
          | some cmd =>
            have h := hcmd cmd rfl
            cases hsplit : split_whitespace cmd with
            | nil => exact absurd hsplit h
            | cons program args => simp [click, hsplit]
        | Middle => simp [click]
        | Right => simp [click]
      · simp [click, hn]

/-- Witness for claim C10: a matching left click returns `Ok`, a
name-mismatched or right-button event spawns nothing. -/
theorem claim_C10_witness :
    (click "blk" (some "nm-connection-editor --show") { name := some "blk", button := MouseButton.Left }).isSome = true ∧
    click "blk" (some "nm-connection-editor --show") { name := some "other", button := MouseButton.Left } = some none ∧
    click "blk" (some "nm-connection-editor --show") { name := some "blk", button := MouseButton.Right } = some none :=
  ⟨(claim_C10 "blk" (some "nm-connection-editor --show") _
      (by intro cmd hc; injection hc with hc; subst hc; decide)).1,
   (claim_C10 "blk" (some "nm-connection-editor --show") _
      (by intro cmd hc; injection hc with hc; subst hc; decide)).2 (by simp),
   (claim_C10 "blk" (some "nm-connection-editor --show") _
      (by intro cmd hc; injection hc with hc; subst hc; decide)).2 (by simp)⟩

/-- Claim C5 (code bug): the configuration documents `max_ssid_width` "in
characters", but `String::truncate` cuts at UTF-8 BYTE offsets. The
two-character, six-byte SSID `"日本"` with `max_ssid_width = 3` should be
kept whole per the claim, yet the code emits `"日 "`; with the SSID `"éé"`
the cut at byte 3 falls inside a character and the code panics. -/
theorem claim_C5_bug :
    cfgC5.max_ssid_width = 3 ∧
    ("日本" : String).length = 2 ∧
    NmAccessPoint.ssid envC5 { path := "/ap" } = some "日本" ∧
    ssidStr cfgC5 envC5 { path := "/dev" } = some "日 " ∧
    ("日 " : String) ≠ "日本 " ∧
    ssidStr cfgC5 envC5panic { path := "/dev" } = none := by
  exact ⟨rfl, by decide, rfl, by decide, by decide, by decide⟩
